import Mathlib

/-!
Verification of the RAG core of the Customer_support_Chatbot repository.

The definitions below are a shallow embedding of the Python source:
* `split_text`, `process_text`, `process_document` follow
  `backend/services/document_processor.py`;
* `add_documents`, `get_response`, `generate_with_llm`,
  `generate_smart_fallback` follow `backend/services/rag_service.py`;
* `upload_screenshot` follows the screenshot endpoint in `backend/main.py`.

Text is `List Char` inside the chunker (Python string slicing is
index-based there) and `String` elsewhere.  Machine loops are embedded
with explicit fuel because the chunker's `while` loop is not obviously
terminating; `finished = true` means the loop exited by itself,
`finished = false` means the fuel ran out first.  External collaborators
(the Chroma vector store, the remote / local language models) are not part
of the repository; they are modelled from the spec's contracts, as noted
on each definition.
-/

/-- The fallback text splitter state of
`RecursiveCharacterTextSplitter.__init__` (document_processor.py lines
10-14): a chunk size and a chunk overlap.  `length_function` is always
`len` and is therefore not represented. -/
structure Splitter where
  chunk_size : Nat
  chunk_overlap : Nat
deriving DecidableEq, Repr

/-- Result of one run of the `split_text` while-loop: the start positions
of the iterations that were entered, the emitted chunks, and whether the
loop exited on its own (`finished = true`) or the fuel ran out
(`finished = false`). -/
structure SplitOut where
  starts : List Nat
  chunks : List (List Char)
  finished : Bool
deriving DecidableEq, Repr

/-- The body of the `while start < text_length and len(chunks) < max_chunks`
loop of `split_text` (document_processor.py lines 32-52), iterated with
explicit fuel.  Each iteration computes `end = min (start + chunk_size)
text_length`, emits `text[start:end]` when it has a non-whitespace
character, sets `start = end - overlap` (natural subtraction agrees with
the Python code because the `start <= 0` check maps negative values to
`end` in both readings), breaks when `start >= text_length`, and applies
the two `start` corrections of lines 45-50. -/
def splitLoop (cs ov : Nat) (text : List Char) (tlen : Nat) :
    Nat → Nat → List (List Char) → SplitOut
  | 0, _, chunks => ⟨[], chunks, false⟩
  | fuel+1, start, chunks =>
    if start < tlen ∧ chunks.length < 10000 then
      let e := min (start + cs) tlen
      let chunk := (text.drop start).take (e - start)
      let chunks1 := if chunk.any (fun c => !c.isWhitespace) then chunks ++ [chunk] else chunks
      let s1 := e - ov
      if tlen ≤ s1 then ⟨[start], chunks1, true⟩
      else
        let s2 := if s1 = 0 then e else s1
        let s3 := if e ≤ s2 then e else s2
        let rest := splitLoop cs ov text tlen fuel s3 chunks1
        ⟨start :: rest.starts, rest.chunks, rest.finished⟩
    else ⟨[], chunks, true⟩

/-- `RecursiveCharacterTextSplitter.split_text` (document_processor.py
lines 16-52): truncate the input to `chunk_size * 10000` characters, then
run the sliding-window loop.  `fuel` bounds the number of loop iterations
of the embedding; the Python loop is unbounded. -/
def split_text (cs ov : Nat) (fuel : Nat) (text : List Char) : SplitOut :=
  let text_length := text.length
  let max_text_length := cs * 10000
  if max_text_length < text_length then
    splitLoop cs ov (text.take max_text_length) max_text_length fuel 0 []
  else
    splitLoop cs ov text text_length fuel 0 []

/-- Python `s.lower()` (ASCII case folding, which is all the source's
string constants need). -/
def pyLower (s : String) : String := String.mk (s.data.map Char.toLower)

/-- Python `s.strip()` with no arguments: drop leading and trailing
whitespace. -/
def pyStrip (s : String) : String :=
  String.mk (((s.data.dropWhile Char.isWhitespace).reverse.dropWhile
    Char.isWhitespace).reverse)

/-- Python `s[:n]` on strings. -/
def pyTake (s : String) (n : Nat) : String := String.mk (s.data.take n)

/-- Python `sub in s`: some suffix of the text starts with `sub`. -/
def subOccurs (sub : List Char) : List Char → Bool
  | [] => sub.isEmpty
  | c :: rest => sub.isPrefixOf (c :: rest) || subOccurs sub rest

/-- Python `sub in s` on strings. -/
def pyContains (s sub : String) : Bool := subOccurs sub.data s.data

/-- Python `s.split(sep)` for a non-empty `sep`: scan left to right,
cutting at each (non-overlapping) occurrence.  The fuel is one more than
the text length, which the scan can never exhaust since every step
consumes at least one character. -/
def splitOnGo (sep : List Char) : Nat → List Char → List Char → List (List Char)
  | 0, l, cur => [cur.reverse ++ l]
  | _ + 1, [], cur => [cur.reverse]
  | fuel + 1, c :: rest, cur =>
    if sep.isPrefixOf (c :: rest) then
      cur.reverse :: splitOnGo sep fuel ((c :: rest).drop sep.length) []
    else splitOnGo sep fuel rest (c :: cur)

/-- Python `s.split(sep)` on strings. -/
def pySplitOn (s sep : String) : List String :=
  (splitOnGo sep.data (s.data.length + 1) s.data []).map String.mk

/-- Accumulating scan behind `pySplitWS`. -/
def wordsGo : List Char → List Char → List (List Char)
  | [], cur => if cur.isEmpty then [] else [cur.reverse]
  | c :: rest, cur =>
    if c.isWhitespace then
      if cur.isEmpty then wordsGo rest [] else cur.reverse :: wordsGo rest []
    else wordsGo rest (c :: cur)

/-- Python `s.split()` with no separator: split on whitespace runs and
drop the empty pieces. -/
def pySplitWS (s : String) : List String := (wordsGo s.data []).map String.mk

/-- 150 letters `a`: a concrete input on which the chunker's window
start stalls at position 130 while chunks keep being emitted. -/
def aText : List Char := List.replicate 150 'a'

/-- 130 letters followed by 20 spaces: the stalled window is whitespace
only, so the loop neither emits a chunk nor advances. -/
def wText : List Char := List.replicate 130 'a' ++ List.replicate 20 ' '

/-- Metadata attached by `DocumentProcessor.process_text` to each chunk
(document_processor.py lines 142-146 and 162-166). -/
structure ChunkMeta where
  source : String
  chunk_index : Nat
  total_chunks : Nat
deriving DecidableEq, Repr

/-- A chunk dictionary `{"content": ..., "metadata": ...}` returned by
`DocumentProcessor.process_text`. -/
structure ChunkDoc where
  content : String
  metadata : ChunkMeta
deriving DecidableEq, Repr

/-- The chunk-wrapping comprehension of `process_text`
(document_processor.py lines 138-147 and 158-167): each chunk becomes a
dictionary with the source label, its position, and a fixed total. -/
def wrap_chunks (l : List (List Char)) (source : String) (tot : Nat) : List ChunkDoc :=
  l.enum.map fun ic => ⟨String.mk ic.2, ⟨source, ic.1, tot⟩⟩

/-- `DocumentProcessor.process_text` (document_processor.py lines
127-168).  `memErr` says whether the first `split_text` call raises
`MemoryError` (an external resource-pressure event, so it is an input of
the embedding).  The normal path caps the chunk list at 10000 and wraps
each chunk with `source`, its position, and the capped count; the
`MemoryError` path halves the splitter parameters through
`min (· / 2) 500` / `min (· / 2) 100`, re-splits the first 100000
characters, and wraps only the first 1000 chunks while `total_chunks`
keeps the pre-cap count `len(chunks)`.  The (possibly mutated) splitter
is returned alongside the chunk dictionaries. -/
def process_text (dp : Splitter) (memErr : Bool) (fuel : Nat)
    (text : String) (source : String) : Splitter × List ChunkDoc :=
  if !memErr then
    let chunks := (split_text dp.chunk_size dp.chunk_overlap fuel text.data).chunks
    let chunks := if 10000 < chunks.length then chunks.take 10000 else chunks
    (dp, wrap_chunks chunks source chunks.length)
  else
    let dp2 : Splitter := ⟨min (dp.chunk_size / 2) 500, min (dp.chunk_overlap / 2) 100⟩
    let chunks := (split_text dp2.chunk_size dp2.chunk_overlap fuel (text.data.take 100000)).chunks
    (dp2, wrap_chunks (chunks.take 1000) source chunks.length)

/-- `DocumentProcessor.process_document` (document_processor.py lines
82-101), taken at the point where the raw bytes have already been turned
into text: the PDF / DOCX / utf-8 extraction is an external collaborator,
so the extracted `text` is an input.  Empty or whitespace-only text is
rejected with `ValueError("No text content found in document")`; anything
else is chunked by `process_text`. -/
def process_document (dp : Splitter) (memErr : Bool) (fuel : Nat)
    (text : String) (filename : String) : Except String (Splitter × List ChunkDoc) :=
  if pyStrip text = "" then Except.error "No text content found in document"
  else Except.ok (process_text dp memErr fuel text filename)

/-- A LangChain `Document`: the page content plus the `source` entry of
its metadata (the only metadata key the service ever reads,
rag_service.py line 312). -/
structure Doc where
  page_content : String
  source : String
deriving DecidableEq, Repr

/-- `[a-z]` / `[A-Z]` of the location regex at rag_service.py line 601:
with `re.IGNORECASE` both classes match any ASCII letter. -/
def asciiAlpha (c : Char) : Bool :=
  ('a' ≤ c && c ≤ 'z') || ('A' ≤ c && c ≤ 'Z')

/-- `\w` for the word-boundary check of that regex (ASCII). -/
def wordChar (c : Char) : Bool := asciiAlpha c || c.isDigit || c == '_'

/-- Case-insensitive literal match of `pat` against the front of `rest`,
returning the remainder on success. -/
def matchLit : List Char → List Char → Option (List Char)
  | [], rest => some rest
  | _ :: _, [] => none
  | p :: ps, c :: cs => if c.toLower == p then matchLit ps cs else none

/-- After one of the alternatives `based in|located in|in` has matched,
match `\s+([A-Z][a-z]+(?:\s+[A-Z][a-z]+)?)` and return group 2.  The
character classes involved are pairwise disjoint, so the greedy matching
of Python's `re` never needs to backtrack here and maximal munch is
exact. -/
def matchLocTail (rest : List Char) : Option (List Char) :=
  let ws := rest.takeWhile Char.isWhitespace
  if ws.isEmpty then none
  else
    let r1 := rest.drop ws.length
    let w1 := r1.takeWhile asciiAlpha
    if w1.length < 2 then none
    else
      let r2 := r1.drop w1.length
      let ws2 := r2.takeWhile Char.isWhitespace
      if ws2.isEmpty then some w1
      else
        let w2 := (r2.drop ws2.length).takeWhile asciiAlpha
        if w2.length < 2 then some w1 else some (w1 ++ ws2 ++ w2)

/-- Attempt of the whole pattern
`\b(based in|located in|in)\s+([A-Z][a-z]+(?:\s+[A-Z][a-z]+)?)` at one
text position (`prev` = preceding character, for `\b`), trying the
alternatives in the order Python's `re` does. -/
def matchLocAt (prev : Option Char) (rest : List Char) : Option (List Char) :=
  let boundary := match prev with
    | none => true
    | some c => !wordChar c
  if !boundary then none
  else
    match matchLit "based in".data rest with
    | some r => match matchLocTail r with
      | some g => some g
      | none =>
        match matchLit "located in".data rest with
        | some r2 => match matchLocTail r2 with
          | some g => some g
          | none => match matchLit "in".data rest with
            | some r3 => matchLocTail r3
            | none => none
        | none => match matchLit "in".data rest with
          | some r3 => matchLocTail r3
          | none => none
    | none =>
      match matchLit "located in".data rest with
      | some r2 => match matchLocTail r2 with
        | some g => some g
        | none => match matchLit "in".data rest with
          | some r3 => matchLocTail r3
          | none => none
      | none => match matchLit "in".data rest with
        | some r3 => matchLocTail r3
        | none => none

/-- `re.search` of that pattern: leftmost position wins
(rag_service.py line 601). -/
def reSearchLoc (prev : Option Char) : List Char → Option (List Char)
  | [] => none
  | c :: rest =>
    match matchLocAt prev (c :: rest) with
    | some g => some g
    | none => reSearchLoc (some c) rest

/-- The location branch of `_generate_smart_fallback` (rag_service.py
lines 593-603): per document, first the fixed Bengaluru / Bangalore
check on the lowered content, then the regex search on the original
content; no hit falls through to the next document. -/
def locScan : List Doc → Option String
  | [] => none
  | d :: ds =>
    let content := pyLower d.page_content
    if pyContains content "bengaluru" || pyContains content "bangalore" then
      some "Based on the documents, the location is Bengaluru (Bangalore)."
    else
      match reSearchLoc none d.page_content.data with
      | some g => some ("Based on the documents, the location is " ++ String.mk g ++ ".")
      | none => locScan ds

/-- The company branch of `_generate_smart_fallback` (rag_service.py
lines 605-629). -/
def companyScan : List Doc → Option String
  | [] => none
  | d :: ds =>
    let content := d.page_content
    let content_lower := pyLower content
    if pyContains content_lower "pin click" &&
        (["tech", "real estate", "advisory", "property advisory firm"].any
          fun w => pyContains content_lower w) then
      let sentences := pySplitOn content "."
      let company_sentences := sentences.filterMap fun sentence =>
        let sl := pyLower sentence
        if (pyContains sl "pin click" || (pyContains sl "company" && !pyContains sl "role")) &&
            (["tech", "real estate", "advisory", "property", "firm", "bangalore",
              "developers"].any fun w => pyContains sl w)
        then some (pyStrip sentence) else none
      if company_sentences != [] then
        some ("Based on the documents: " ++ String.intercalate ". " (company_sentences.take 3) ++ ".")
      else
        match sentences.find? (fun s => pyContains (pyLower s) "pin click") with
        | some s => some ("Based on the documents: " ++ pyStrip s ++ ".")
        | none => companyScan ds
    else companyScan ds

/-- The role branch of `_generate_smart_fallback` (rag_service.py lines
631-640). -/
def roleScan : List Doc → Option String
  | [] => none
  | d :: ds =>
    let cl := pyLower d.page_content
    if pyContains cl "property advisor" || pyContains cl "role" then
      match (pySplitOn d.page_content ".").find?
          (fun s => pyContains (pyLower s) "property advisor" ||
                    pyContains (pyLower s) "responsible") with
      | some s => some ("Based on the documents: " ++ pyStrip s ++ ".")
      | none => roleScan ds
    else roleScan ds

/-- The summary branch of `_generate_smart_fallback` (rag_service.py
lines 642-650); it always returns. -/
def summaryAnswer (docs : List Doc) : String :=
  let parts := (docs.take 2).map fun d =>
    let content := d.page_content
    let fs := if pyContains content "." then ((pySplitOn content ".").headD "")
              else pyTake content 100
    pyStrip fs
  "Based on the documents: " ++ String.intercalate ". " parts ++ "."

/-- The per-document lexical-overlap score of the default branch
(rag_service.py line 660): the number of query words that are longer than
two characters and occur in the lowered content. -/
def scoreDoc (query_words : List String) (d : Doc) : Nat :=
  (query_words.filter fun w => pyContains (pyLower d.page_content) w && 2 < w.length).length

/-- The default branch of `_generate_smart_fallback` (rag_service.py
lines 652-674): pick the best-scoring document (strictly-greater updates,
first document wins ties), else fall back to the leading context excerpt,
else the fixed no-information message. -/
def defaultAnswer (query_words : List String) (docs : List Doc) (context : String) : String :=
  let best := docs.foldl
    (fun acc d =>
      let s := scoreDoc query_words d
      if acc.2 < s then (some d, s) else acc)
    ((none : Option Doc), 0)
  match best with
  | (some d, s) =>
    if 0 < s then
      "Based on the documents: " ++ pyTake d.page_content 300 ++
        (if 300 < d.page_content.length then "..." else "")
    else if context != "" then
      "Based on the documents: " ++ pyTake context 500 ++
        (if 500 < context.length then "..." else "")
    else
      "I have the documents, but I couldn't find specific information to answer your question. Could you rephrase it?"
  | (none, _) =>
    if context != "" then
      "Based on the documents: " ++ pyTake context 500 ++
        (if 500 < context.length then "..." else "")
    else
      "I have the documents, but I couldn't find specific information to answer your question. Could you rephrase it?"

/-- `RAGService._generate_smart_fallback` (rag_service.py lines 582-674).
It reads nothing but its three arguments — no service state, no
environment, no randomness — which is what makes the purity claim about
it expressible at all: the embedding is an ordinary total function. -/
def generate_smart_fallback (query : String) (docs : List Doc) (context : String) : String :=
  let query_lower := pyStrip (pyLower query)
  let query_words := pySplitWS query_lower
  let greetings := ["hi", "hello", "hey", "greetings", "good morning",
                    "good afternoon", "good evening"]
  if query_lower ∈ greetings ∨
      (query_words.length ≤ 2 ∧ query_words.any fun w => greetings.contains w) then
    "Hello! I'm here to help you with questions about the uploaded documents. What would you like to know?"
  else if ["location", "where", "place", "city", "address"].any
      (fun w => pyContains query_lower w) then
    match locScan docs with
    | some a => a
    | none => defaultAnswer query_words docs context
  else if (["company", "what does", "description", "about"].any
      fun w => pyContains query_lower w) && !pyContains query_lower "role" then
    match companyScan docs with
    | some a => a
    | none => defaultAnswer query_words docs context
  else if ["role", "job", "position", "responsibility", "duties", "advisor"].any
      (fun w => pyContains query_lower w) then
    match roleScan docs with
    | some a => a
    | none => defaultAnswer query_words docs context
  else if ["short", "brief", "summary", "summarize"].any
      (fun w => pyContains query_lower w) then
    summaryAnswer docs
  else defaultAnswer query_words docs context

/-- The two-step cleanup applied to the generated text at
rag_service.py lines 562-568: cut everything up to the last `"Answer:"`,
then, if `"Context:"` is still present, keep what follows the last
`"Question:"`. -/
def cleanupResponse (rt : String) : String :=
  let rt := if pyContains rt "Answer:" then pyStrip ((pySplitOn rt "Answer:").getLastD "") else rt
  if pyContains rt "Context:" then
    let parts := pySplitOn rt "Question:"
    if 1 < parts.length then pyStrip (parts.getLastD "") else rt
  else rt

/-- `RAGService._generate_with_llm` (rag_service.py lines 341-570) with
the external generation attempts abstracted: `attempts` lists, in the
order the code tries them (`invoke`, `predict`, `run`, the three direct
HTTP endpoints, `__call__`), the text each attempt would produce —
`none` for an attempt that fails, raises, or is not supported by the
model object.  The code keeps the first success; if every attempt fails
it calls `_generate_smart_fallback` (lines 541-546).  The result then
goes through the response-format normalization (our attempts are already
strings) and `cleanupResponse`.  `llmLoaded` is the truthiness of
`self.llm`; the early-return branch of lines 343-348 is kept for
fidelity although `get_response` only calls this with `llmLoaded =
true`. -/
def generate_with_llm (llmLoaded : Bool) (attempts : List (Option String))
    (query : String) (docs : List Doc) : String :=
  if !llmLoaded then
    if docs != [] then
      "Based on the provided documents:\n\n" ++
        pyTake (String.intercalate "\n\n" ((docs.take 2).map Doc.page_content)) 500 ++ "..."
    else "I'm here to help! Please upload some documents first so I can answer your questions."
  else
    let context := if docs != [] then String.intercalate "\n\n" (docs.map Doc.page_content) else ""
    let response := attempts.findSome? id
    let response_text := match response with
      | some r => r
      | none => generate_smart_fallback query docs context
    cleanupResponse response_text

/-- In-process state of `RAGService` as far as the index store is
concerned: `disk` is the durable Chroma collection per session id
(`persist_directory`), `cache` is `self.vector_stores`, the dictionary of
open store handles.  A handle is modelled by the document list it sees.
Modelled from the spec: Chroma itself is not repository code; §4.2 of the
spec gives its contract (open loads the committed collection, `persist`
commits the handle's content durably). -/
structure RAGState where
  disk : String → List Doc
  cache : String → Option (List Doc)

/-- `RAGService._get_vector_store` (rag_service.py lines 185-210): return
the cached handle for the session, or open one from durable storage and
cache it.  Modelled from the spec: opening a Chroma collection loads the
documents previously persisted for that collection. -/
def get_vector_store (st : RAGState) (session_id : String) : List Doc × RAGState :=
  match st.cache session_id with
  | some h => (h, st)
  | none =>
    let h := st.disk session_id
    (h, ⟨st.disk, fun s => if s = session_id then some h else st.cache s⟩)

/-- Chroma's `similarity_search(query, k)` on a handle.  Modelled from
the spec (§4.2): at most `k` results, empty when the collection is
empty; the embedding picks the first `k` stored documents as the
top-`k`. -/
def similarity_search (_query : String) (k : Nat) (h : List Doc) : List Doc :=
  h.take k

/-- `RAGService.add_documents` (rag_service.py lines 212-263): get (or
open) the session's store, convert the chunk dictionaries to `Document`s
carrying their `source`, add them to the collection, `persist`, and then
drop the cached handle so the next access reopens from durable storage
(lines 229-244).  The verification reads of lines 246-258 have no effect
on the state and are omitted. -/
def add_documents (st : RAGState) (chunks : List ChunkDoc) (session_id : String) : RAGState :=
  let vs := get_vector_store st session_id
  let documents := chunks.map fun c => (⟨c.content, c.metadata.source⟩ : Doc)
  let h2 := vs.1 ++ documents
  let st2 : RAGState := ⟨vs.2.disk, fun s => if s = session_id then some h2 else vs.2.cache s⟩
  let st3 : RAGState := ⟨fun s => if s = session_id then h2 else st2.disk s, st2.cache⟩
  ⟨st3.disk, fun s => if s = session_id then none else st3.cache s⟩

/-- Python's `list(set(xs))` over the source labels (rag_service.py line
312), modelled as first-occurrence deduplication (CPython's set
iteration order is unspecified; no claim depends on the order). -/
def pySetList (xs : List String) : List String :=
  xs.foldl (fun acc s => if s ∈ acc then acc else acc ++ [s]) []

/-- `RAGService.get_response` (rag_service.py lines 265-339).  External
pieces: the store handle comes from the modelled index store; `llm` is
the truthiness of `self.llm` after lazy initialization; `attempts` is
the generation oracle passed to `generate_with_llm`.  The flow embedded:
probe `similarity_search("", k=1)` and answer the fixed no-documents
message with empty sources when it is empty; retrieve the top 3 segments
for the query; answer the same fixed message when nothing is retrieved;
otherwise deduplicate sources, join the contents with blank lines, and
generate either with the model tiers (`llm = true`) or with the
context-echo fallback of line 330 (`llm = false`). -/
def get_response (st : RAGState) (llm : Bool) (attempts : List (Option String))
    (query : String) (session_id : String) : (String × List String) × RAGState :=
  let vs := get_vector_store st session_id
  let sample_docs := similarity_search "" 1 vs.1
  if sample_docs.length = 0 then
    (("I don't have any documents to reference yet. Please upload a document first.", []), vs.2)
  else
    let docs := similarity_search query 3 vs.1
    if docs.length = 0 then
      (("I don't have any documents to reference yet. Please upload a document first.", []), vs.2)
    else
      let sources := pySetList (docs.map Doc.source)
      let context := String.intercalate "\n\n" (docs.map Doc.page_content)
      let response :=
        if llm then generate_with_llm true attempts query docs
        else
          "Based on the documents and your question '" ++ query ++ "':\n\n" ++
            pyTake context 1000 ++ (if 1000 < context.length then "..." else "")
      ((response, sources), vs.2)

/-- The `/api/upload/screenshot` endpoint (main.py lines 251-288) from
the point where OCR has produced `extracted_text` (the OCR service is an
external collaborator).  When the text is non-empty (Python truthiness)
it is chunked and ingested; an empty extraction is skipped silently and
the endpoint still answers success, reporting `"No text found"`.  The
result carries the response message, the echoed text excerpt, and the
updated processor / store state; `Except.error` would be the
`HTTPException` path, which this flow never takes. -/
def upload_screenshot (dp : Splitter) (st : RAGState) (memErr : Bool) (fuel : Nat)
    (extracted_text filename session_id : String) :
    Except String (String × String × Splitter × RAGState) :=
  let step :=
    if extracted_text != "" then
      let pr := process_text dp memErr fuel extracted_text filename
      (pr.1, add_documents st pr.2 session_id)
    else (dp, st)
  Except.ok ("Screenshot processed successfully",
    (if extracted_text != "" then pyTake extracted_text 200 else "No text found"),
    step.1, step.2)

/-! ## Shared helper lemmas -/

/-- `wrap_chunks` keeps the chunk count. -/
theorem wrap_chunks_length (l : List (List Char)) (src : String) (tot : Nat) :
    (wrap_chunks l src tot).length = l.length := by
  simp [wrap_chunks, List.enum_length]

/-- The wrapped dictionaries' indices are their positions, in order. -/
theorem wrap_chunks_map_index (l : List (List Char)) (src : String) (tot : Nat) :
    (wrap_chunks l src tot).map (fun c => c.metadata.chunk_index) = List.range l.length := by
  rw [wrap_chunks, List.map_map]
  have hcomp : ((fun c => c.metadata.chunk_index) ∘ fun ic =>
      (⟨String.mk ic.2, ⟨src, ic.1, tot⟩⟩ : ChunkDoc)) = Prod.fst := rfl
  rw [hcomp, List.enum_map_fst]

/-- Every wrapped dictionary carries the caller's source label and the
fixed total. -/
theorem wrap_chunks_mem (l : List (List Char)) (src : String) (tot : Nat) :
    ∀ c ∈ wrap_chunks l src tot, c.metadata.source = src ∧ c.metadata.total_chunks = tot := by
  intro c hc
  rw [wrap_chunks, List.mem_map] at hc
  obtain ⟨ic, _, rfl⟩ := hc
  exact ⟨rfl, rfl⟩

/-- The contents of the wrapped chunk dictionaries are exactly the
chunks, as strings. -/
theorem wrap_chunks_map_content (l : List (List Char)) (src : String) (tot : Nat) :
    (wrap_chunks l src tot).map ChunkDoc.content = l.map String.mk := by
  rw [wrap_chunks, List.map_map]
  have hcomp : (ChunkDoc.content ∘ fun ic =>
      (⟨String.mk ic.2, ⟨src, ic.1, tot⟩⟩ : ChunkDoc)) = (String.mk ∘ Prod.snd) := rfl
  rw [hcomp, ← List.map_map, List.enum_map_snd]

/-- Unfolding of the normal (no `MemoryError`) path of `process_text`. -/
theorem process_text_false_eq (dp : Splitter) (fuel : Nat) (text src : String) :
    process_text dp false fuel text src =
      (dp, wrap_chunks
        (if 10000 < ((split_text dp.chunk_size dp.chunk_overlap fuel text.data).chunks).length
         then ((split_text dp.chunk_size dp.chunk_overlap fuel text.data).chunks).take 10000
         else (split_text dp.chunk_size dp.chunk_overlap fuel text.data).chunks) src
        (if 10000 < ((split_text dp.chunk_size dp.chunk_overlap fuel text.data).chunks).length
         then ((split_text dp.chunk_size dp.chunk_overlap fuel text.data).chunks).take 10000
         else (split_text dp.chunk_size dp.chunk_overlap fuel text.data).chunks).length) := rfl

/-- Unfolding of the `MemoryError` retry path of `process_text`. -/
theorem process_text_true_eq (dp : Splitter) (fuel : Nat) (text src : String) :
    process_text dp true fuel text src =
      (⟨min (dp.chunk_size / 2) 500, min (dp.chunk_overlap / 2) 100⟩, wrap_chunks
        (((split_text (min (dp.chunk_size / 2) 500) (min (dp.chunk_overlap / 2) 100) fuel
          (text.data.take 100000)).chunks).take 1000) src
        ((split_text (min (dp.chunk_size / 2) 500) (min (dp.chunk_overlap / 2) 100) fuel
          (text.data.take 100000)).chunks).length) := rfl

/-! ## C10 — the degraded path permanently reconfigures the splitter -/

/-- C10: the `MemoryError` retry path of `process_text` overwrites the
splitter's `chunk_size` and `chunk_overlap` with `min (· / 2) 500` and
`min (· / 2) 100` (document_processor.py lines 155-156), and that is the
only state the processor carries, so the reduction persists; the normal
path leaves the splitter untouched, so nothing ever restores the
constructor-supplied values. -/
theorem c10_splitter_frame (dp : Splitter) (fuel : Nat) (text src : String) :
    (process_text dp true fuel text src).1 =
      ⟨min (dp.chunk_size / 2) 500, min (dp.chunk_overlap / 2) 100⟩ ∧
    (process_text dp false fuel text src).1 = dp :=
  ⟨rfl, rfl⟩

/-! ## C5 — the heuristic tier is pure and deterministic -/

/-- C5: `_generate_smart_fallback` reads nothing but its arguments — it
is embedded as a total function of `(query, docs, context)`, with no
state, oracle, or environment parameter, unlike the model tiers — so two
calls on identical inputs return identical strings. -/
theorem c5_smart_fallback_deterministic (q1 q2 : String) (d1 d2 : List Doc) (c1 c2 : String)
    (hq : q1 = q2) (hd : d1 = d2) (hc : c1 = c2) :
    generate_smart_fallback q1 d1 c1 = generate_smart_fallback q2 d2 c2 := by
  subst hq; subst hd; subst hc; rfl

/-- Witness for C5 at a concrete input. -/
theorem c5_smart_fallback_deterministic_witness :
    generate_smart_fallback "where is the office?"
        [⟨"Pin Click is based in Bengaluru.", "doc1"⟩] "ctx" =
      generate_smart_fallback "where is the office?"
        [⟨"Pin Click is based in Bengaluru.", "doc1"⟩] "ctx" :=
  c5_smart_fallback_deterministic _ _ _ _ _ _ rfl rfl rfl

/-! ## C8 — the degraded retry caps, it does not floor -/

/-- C8, counterexample: starting from `chunk_size = 600, overlap = 150`,
the retry sets the splitter to `(300, 75)` — `min (· / 2) 500` /
`min (· / 2) 100` are ceilings — not the `(500, 100)` that the claimed
floors `max (· / 2) 500` / `max (· / 2) 100` would give, so the
parameters do go below 500/100. -/
theorem c8_floor_counterexample :
    ¬ ((process_text ⟨600, 150⟩ true 5 "ab" "s").1 =
        ⟨max (600 / 2) 500, max (150 / 2) 100⟩) := by
  decide

/-- C8, amended: on `MemoryError` the operation is retried once with
`chunk_size := min (chunk_size / 2) 500` and
`overlap := min (overlap / 2) 100` (caps at 500/100, not floors), the
input truncated to its first 100000 characters, and the returned list
capped at 1000 entries drawn from the retry's chunks; the retry path
returns a result instead of propagating the error. -/
theorem c8_degraded_retry (dp : Splitter) (fuel : Nat) (text src : String) :
    (process_text dp true fuel text src).1 =
      ⟨min (dp.chunk_size / 2) 500, min (dp.chunk_overlap / 2) 100⟩ ∧
    ((process_text dp true fuel text src).2).length ≤ 1000 ∧
    ((process_text dp true fuel text src).2).map ChunkDoc.content ⊆
      ((split_text (min (dp.chunk_size / 2) 500) (min (dp.chunk_overlap / 2) 100) fuel
        (text.data.take 100000)).chunks).map String.mk := by
  refine ⟨rfl, ?_, ?_⟩
  · rw [process_text_true_eq]
    rw [wrap_chunks_length, List.length_take]
    omega
  · rw [process_text_true_eq]
    rw [wrap_chunks_map_content]
    exact List.map_subset _ (List.take_subset _ _)

/-- Witness for C8 at a concrete input (the theorem has no premiss; this
instantiates it and evaluates the components). -/
theorem c8_degraded_retry_witness :
    (process_text ⟨600, 150⟩ true 5 "ab" "s").1 = ⟨300, 75⟩ ∧
    ((process_text ⟨600, 150⟩ true 5 "ab" "s").2).length ≤ 1000 :=
  ⟨(c8_degraded_retry ⟨600, 150⟩ 5 "ab" "s").1, (c8_degraded_retry ⟨600, 150⟩ 5 "ab" "s").2.1⟩

/-! ## C9 — empty extracted text across the ingestion surfaces -/

/-- C9, counterexample: on the screenshot endpoint an empty OCR
extraction is not rejected — the endpoint still answers
`"Screenshot processed successfully"` (with `"No text found"` as the
echoed text), silently skipping ingestion, contrary to the claim that
every ingestion surface reports empty extracted text as an error. -/
theorem c9_screenshot_silent_skip_counterexample :
    upload_screenshot ⟨1000, 200⟩ ⟨fun _ => [], fun _ => none⟩ false 5 "" "shot.png" "s1" =
      Except.ok ("Screenshot processed successfully", "No text found",
        ⟨1000, 200⟩, ⟨fun _ => [], fun _ => none⟩) := rfl

/-- C9, amended: `process_document` does reject empty or whitespace-only
extracted text with the `ValueError("No text content found in
document")` condition, but the OCR/screenshot upload path does not: with
empty extracted text it skips ingestion and still returns a success
response. -/
theorem c9_ingestion_empty_text (dp : Splitter) (st : RAGState) (memErr : Bool) (fuel : Nat)
    (text filename session_id : String) (h : pyStrip text = "") :
    process_document dp memErr fuel text filename =
      Except.error "No text content found in document" ∧
    ∃ r, upload_screenshot dp st memErr fuel "" filename session_id = Except.ok r := by
  constructor
  · simp [process_document, h]
  · exact ⟨_, rfl⟩

/-- Witness for C9 at a concrete whitespace-only input. -/
theorem c9_ingestion_empty_text_witness :
    (pyStrip "  \n " = "") ∧
    (process_document ⟨1000, 200⟩ false 5 "  \n " "a.txt" =
      Except.error "No text content found in document" ∧
    ∃ r, upload_screenshot ⟨1000, 200⟩ ⟨fun _ => [], fun _ => none⟩ false 5 "" "a.txt" "s1" =
      Except.ok r) :=
  ⟨by decide, c9_ingestion_empty_text ⟨1000, 200⟩ ⟨fun _ => [], fun _ => none⟩ false 5
    "  \n " "a.txt" "s1" (by decide)⟩

/-! ## C1 — commit-before-return and cache invalidation give read-your-writes -/

/-- C1: after `add_documents` returns, the documents are committed
durably, the cached store handle for the session is dropped, and a
search issued immediately afterwards — `similarity_search("", k=1)` on
the handle `get_response` would reopen — returns at least one result.
The Chroma backend itself is modelled from the spec's Index Store
contract (§4.2); the embedded code is the orchestration of
rag_service.py lines 229-244 (add, persist, invalidate). -/
theorem c1_read_your_writes (st : RAGState) (chunks : List ChunkDoc) (session_id : String)
    (h : chunks ≠ []) :
    (add_documents st chunks session_id).cache session_id = none ∧
    (add_documents st chunks session_id).disk session_id =
      (get_vector_store st session_id).1 ++
        chunks.map (fun c => (⟨c.content, c.metadata.source⟩ : Doc)) ∧
    1 ≤ (similarity_search "" 1
      (get_vector_store (add_documents st chunks session_id) session_id).1).length := by
  have hc : (add_documents st chunks session_id).cache session_id = none := by
    simp [add_documents]
  have hd : (add_documents st chunks session_id).disk session_id =
      (get_vector_store st session_id).1 ++
        chunks.map (fun c => (⟨c.content, c.metadata.source⟩ : Doc)) := by
    simp [add_documents]
  refine ⟨hc, hd, ?_⟩
  unfold get_vector_store
  rw [hc]
  simp only [similarity_search, List.length_take, hd]
  have hlen : 0 < chunks.length := List.length_pos.mpr h
  simp [List.length_append, List.length_map]
  omega

/-- Witness for C1: ingesting one chunk into a fresh store. -/
theorem c1_read_your_writes_witness :
    (add_documents ⟨fun _ => [], fun _ => none⟩ [⟨"hello", ⟨"doc1", 0, 1⟩⟩] "s1").cache "s1" = none ∧
    (add_documents ⟨fun _ => [], fun _ => none⟩ [⟨"hello", ⟨"doc1", 0, 1⟩⟩] "s1").disk "s1" =
      (get_vector_store ⟨fun _ => [], fun _ => none⟩ "s1").1 ++
        ([(⟨"hello", ⟨"doc1", 0, 1⟩⟩ : ChunkDoc)]).map
          (fun c => (⟨c.content, c.metadata.source⟩ : Doc)) ∧
    1 ≤ (similarity_search "" 1 (get_vector_store
      (add_documents ⟨fun _ => [], fun _ => none⟩ [⟨"hello", ⟨"doc1", 0, 1⟩⟩] "s1") "s1").1).length :=
  c1_read_your_writes ⟨fun _ => [], fun _ => none⟩ [⟨"hello", ⟨"doc1", 0, 1⟩⟩] "s1" (by decide)

/-! ## C6 — fixed response on an empty conversation index -/

/-- C6: when the conversation's index holds zero documents (nothing on
disk and no stale non-empty cached handle, which ingestion cannot
produce anyway), `get_response` returns the fixed no-documents message
with an empty sources list — an ordinary return value, not an error
(rag_service.py lines 270-277). -/
theorem c6_empty_index_fixed_response (st : RAGState) (llm : Bool)
    (attempts : List (Option String)) (query session_id : String)
    (hdisk : st.disk session_id = [])
    (hcache : st.cache session_id = none ∨ st.cache session_id = some []) :
    (get_response st llm attempts query session_id).1 =
      ("I don't have any documents to reference yet. Please upload a document first.", []) := by
  unfold get_response get_vector_store
  rcases hcache with hca | hca <;> rw [hca] <;> simp [similarity_search, hdisk]

/-- Witness for C6: querying a fresh store. -/
theorem c6_empty_index_fixed_response_witness :
    (get_response ⟨fun _ => [], fun _ => none⟩ false [] "hello" "s1").1 =
      ("I don't have any documents to reference yet. Please upload a document first.", []) :=
  c6_empty_index_fixed_response ⟨fun _ => [], fun _ => none⟩ false [] "hello" "s1"
    rfl (Or.inl rfl)

/-! ## C4 — which tier answers when no generator is reachable -/

/-- C4, counterexample to the claim as stated: with `self.llm` unset
(`llm = false`) and a non-empty retrieval, `get_response` does *not*
answer through `_generate_smart_fallback` — it returns the context-echo
string of rag_service.py line 330 (`"Based on the documents and your
question '...'"`), which differs from the heuristic tier's output on the
same retrieval. -/
theorem c4_heuristic_tier_counterexample :
    (get_response ⟨fun _ => [⟨"hello", "d"⟩], fun _ => none⟩ false [] "x" "s1").1.1 ≠
      cleanupResponse (generate_smart_fallback "x"
        (similarity_search "x" 3
          (get_vector_store ⟨fun _ => [⟨"hello", "d"⟩], fun _ => none⟩ "s1").1)
        (String.intercalate "\n\n"
          ((similarity_search "x" 3
            (get_vector_store ⟨fun _ => [⟨"hello", "d"⟩], fun _ => none⟩ "s1").1).map
              Doc.page_content))) := by
  decide

/-- C4, amended: the heuristic tier answers the no-reachable-generator
case only when a model object is loaded (`self.llm` truthy) and every
generation attempt fails; then the answer of `get_response` on a
non-empty retrieval is exactly the cleaned-up output of
`_generate_smart_fallback` (rag_service.py lines 541-546).  When
`self.llm` is `None`, `get_response` instead returns the context-echo
fallback of line 330 without consulting the heuristic tier. -/
theorem c4_heuristic_tier_on_llm_failure (st : RAGState) (attempts : List (Option String))
    (query session_id : String)
    (hfail : attempts.findSome? id = none)
    (hne : similarity_search query 3 (get_vector_store st session_id).1 ≠ []) :
    (get_response st true attempts query session_id).1.1 =
      cleanupResponse (generate_smart_fallback query
        (similarity_search query 3 (get_vector_store st session_id).1)
        (String.intercalate "\n\n"
          ((similarity_search query 3 (get_vector_store st session_id).1).map
            Doc.page_content))) := by
  have hvs : (get_vector_store st session_id).1 ≠ [] := by
    intro hnil
    exact hne (by simp [similarity_search, hnil])
  have hsample : ¬ ((similarity_search "" 1 (get_vector_store st session_id).1).length = 0) := by
    simp only [similarity_search, List.length_take]
    have : 0 < (get_vector_store st session_id).1.length := List.length_pos.mpr hvs
    omega
  have hdocs : ¬ ((similarity_search query 3 (get_vector_store st session_id).1).length = 0) := by
    simpa [List.length_eq_zero] using hne
  unfold get_response
  rw [if_neg hsample, if_neg hdocs]
  simp only [generate_with_llm, Bool.not_true, Bool.false_eq_true, if_false, hfail,
    bne_iff_ne, ne_eq, hne, not_false_eq_true, if_true, List.findSome?]

/-- Witness for the amended C4: one loaded model whose only generation
attempt fails, over a one-document store. -/
theorem c4_heuristic_tier_on_llm_failure_witness :
    (([(none : Option String)]).findSome? id = none) ∧
    similarity_search "x" 3
      (get_vector_store ⟨fun _ => [⟨"hello", "d"⟩], fun _ => none⟩ "s1").1 ≠ [] ∧
    (get_response ⟨fun _ => [⟨"hello", "d"⟩], fun _ => none⟩ true [none] "x" "s1").1.1 =
      cleanupResponse (generate_smart_fallback "x"
        (similarity_search "x" 3
          (get_vector_store ⟨fun _ => [⟨"hello", "d"⟩], fun _ => none⟩ "s1").1)
        (String.intercalate "\n\n"
          ((similarity_search "x" 3
            (get_vector_store ⟨fun _ => [⟨"hello", "d"⟩], fun _ => none⟩ "s1").1).map
              Doc.page_content))) :=
  ⟨rfl, by decide,
    c4_heuristic_tier_on_llm_failure ⟨fun _ => [⟨"hello", "d"⟩], fun _ => none⟩ [none] "x" "s1"
      rfl (by decide)⟩

/-! ## C2 — does the window start strictly increase? -/

set_option maxRecDepth 4000

/-- C2, counterexample to the claim as stated: on 150 letters with
`chunk_size = 100, overlap = 20` the loop visits start positions
`0, 80, 130, 130, ...` — once `end` is clamped to the text length the
cursor stalls at `text_length - overlap`, because the `start >= end`
safety check never fires (`130 < 150`), so the starts are not strictly
increasing and the final chunk is emitted again from the same start. -/
theorem c2_strict_increase_counterexample :
    ¬ List.Chain' (· < ·) ((split_text 100 20 4 aText).starts) := by
  have hs : (split_text 100 20 4 aText).starts = [0, 80, 130, 130] := rfl
  simp only [hs, List.chain'_cons, List.chain'_singleton, and_true]
  omega

/-- Invariant proof for the corrected statement: from any loop entry
whose start satisfies `s = 0 ∨ s + ov ≤ tlen ∨ tlen ≤ s` — which the
loop maintains — the visited start positions never decrease, and all of
them dominate the entry start. -/
theorem splitLoop_starts_mono (cs ov : Nat) (t : List Char) (tlen : Nat) (hco : ov < cs) :
    ∀ fuel s acc, (s = 0 ∨ s + ov ≤ tlen ∨ tlen ≤ s) →
      List.Chain' (· ≤ ·) ((splitLoop cs ov t tlen fuel s acc).starts) ∧
      ∀ x ∈ (splitLoop cs ov t tlen fuel s acc).starts, s ≤ x := by
  intro fuel
  induction fuel with
  | zero => intro s acc _; simp [splitLoop]
  | succ fuel ih =>
    intro s acc hinv
    simp only [splitLoop]
    by_cases hcond : s < tlen ∧ acc.length < 10000
    · rw [if_pos hcond]
      generalize (if ((t.drop s).take (min (s + cs) tlen - s)).any (fun c => !c.isWhitespace) = true
          then acc ++ [(t.drop s).take (min (s + cs) tlen - s)] else acc) = acc1
      by_cases hbrk : tlen ≤ min (s + cs) tlen - ov
      · rw [if_pos hbrk]
        constructor
        · simp
        · intro x hx
          simp at hx
          omega
      · rw [if_neg hbrk]
        have he1 : s + 1 ≤ min (s + cs) tlen := by
          rcases Nat.le_total (s + cs) tlen with h | h
          · rw [min_eq_left h]; omega
          · rw [min_eq_right h]; omega
        have he2 : min (s + cs) tlen ≤ tlen := min_le_right _ _
        set e := min (s + cs) tlen with hedef
        set s2 := if e - ov = 0 then e else e - ov with hs2def
        set s3 := if e ≤ s2 then e else s2 with hs3def
        have hmin : e = s + cs ∨ e = tlen := by
          rcases Nat.le_total (s + cs) tlen with h | h
          · left; rw [hedef, min_eq_left h]
          · right; rw [hedef, min_eq_right h]
        have hs3inv : s3 = 0 ∨ s3 + ov ≤ tlen ∨ tlen ≤ s3 := by
          rw [hs3def, hs2def]
          by_cases h0 : e - ov = 0
          · have : e = tlen := by
              rcases hmin with h | h
              · omega
              · exact h
            simp only [h0, if_pos]
            split <;> omega
          · split <;> split <;> omega
        have hs3ge : s ≤ s3 := by
          rw [hs3def, hs2def]
          by_cases h0 : e - ov = 0
          · simp only [h0, if_pos]
            split <;> omega
          · have hsov : s + ov ≤ e := by
              rcases hinv with h | h | h
              · omega
              · rcases hmin with hm | hm <;> omega
              · omega
            split <;> split <;> omega
        obtain ⟨ihc, ihb⟩ := ih s3 acc1 hs3inv
        constructor
        · simp only
          rw [List.chain'_cons']
          refine ⟨?_, ihc⟩
          intro b hb
          exact le_trans hs3ge (ihb b (List.mem_of_mem_head? hb))
        · intro x hx
          simp only [List.mem_cons] at hx
          rcases hx with rfl | hx
          · exact le_refl x
          · exact le_trans hs3ge (ihb x hx)
    · rw [if_neg hcond]
      simp

/-- C2, amended: for `chunk_size > overlap ≥ 0` the visited window start
positions are non-decreasing (`next_start ≥ previous_start`), but not
strictly increasing: the cursor may stall at `text_length - overlap`
once the window reaches the end of the text, so the same chunk can be
emitted repeatedly (up to the 10000-chunk cap). -/
theorem c2_starts_nondecreasing (cs ov fuel : Nat) (text : List Char) (hco : ov < cs) :
    List.Chain' (· ≤ ·) ((split_text cs ov fuel text).starts) := by
  unfold split_text
  dsimp only
  split
  · exact (splitLoop_starts_mono cs ov _ _ hco fuel 0 [] (Or.inl rfl)).1
  · exact (splitLoop_starts_mono cs ov _ _ hco fuel 0 [] (Or.inl rfl)).1

/-- Witness for the amended C2 at a concrete input. -/
theorem c2_starts_nondecreasing_witness :
    0 < 2 ∧ List.Chain' (· ≤ ·) ((split_text 2 0 5 ['a', 'b', 'c']).starts) :=
  ⟨by decide, c2_starts_nondecreasing 2 0 5 ['a', 'b', 'c'] (by decide)⟩

/-! ## C3 — termination of `split_text` -/

/-- Once the loop of `split_text` reaches start 130 on `wText` (150
characters, the last 20 whitespace) with `chunk_size = 100, overlap =
20`, every iteration recomputes the whitespace-only window
`text[130:150]`, emits nothing, sets `start` back to `150 - 20 = 130`,
and loops: the exit conditions never fire, for any amount of fuel. -/
theorem splitLoop_wText_stall :
    ∀ fuel (acc : List (List Char)), acc.length < 10000 →
      (splitLoop 100 20 wText 150 fuel 130 acc).finished = false := by
  intro fuel
  induction fuel with
  | zero => intro acc h; simp only [splitLoop]
  | succ fuel ih =>
    intro acc h
    simp only [splitLoop]
    rw [if_pos (show 130 < 150 ∧ acc.length < 10000 from ⟨by norm_num, h⟩)]
    have hch : ((wText.drop 130).take (min (130 + 100) 150 - 130)).any
        (fun c => !c.isWhitespace) = false := by decide
    simp only [hch, if_false, Bool.false_eq_true]
    norm_num
    exact ih acc h

/-- C3 (code bug): `split_text` does not terminate on every input with
`chunk_size > overlap ≥ 0`.  On `wText` with `chunk_size = 100,
overlap = 20` the embedded loop exhausts any fuel — the Python loop runs
forever — because the stalled window is whitespace-only, so the chunk
list stops growing and the `max_chunks` bound never ends the loop
either. -/
theorem c3_split_text_nontermination (fuel : Nat) :
    (split_text 100 20 fuel wText).finished = false := by
  show (splitLoop 100 20 wText 150 fuel 0 []).finished = false
  rcases fuel with _ | _ | fuel
  · rfl
  · rfl
  · have h1 : (splitLoop 100 20 wText 150 (fuel + 2) 0 []).finished =
        (splitLoop 100 20 wText 150 (fuel + 1) 80 [wText.take 100]).finished := rfl
    have h2 : (splitLoop 100 20 wText 150 (fuel + 1) 80 [wText.take 100]).finished =
        (splitLoop 100 20 wText 150 fuel 130
          [wText.take 100, (wText.drop 80).take 70]).finished := rfl
    rw [h1, h2]
    exact splitLoop_wText_stall fuel _ (by decide)

/-! ## C7 — chunk metadata versus what is actually returned -/

/-- On `aText` (150 letters) with `chunk_size = 100, overlap = 20` the
loop stalls at start 130 but the window `text[130:150]` is all letters,
so every further iteration emits it again: the chunk list grows by one
per unit of fuel until the 10000-chunk cap ends the loop. -/
theorem splitLoop_aText_stall_growth :
    ∀ fuel (acc : List (List Char)), acc.length ≤ 10000 →
      ((splitLoop 100 20 aText 150 fuel 130 acc).chunks).length =
        min (acc.length + fuel) 10000 := by
  intro fuel
  induction fuel with
  | zero =>
    intro acc h
    simp only [splitLoop]
    omega
  | succ fuel ih =>
    intro acc h
    by_cases hlt : acc.length < 10000
    · simp only [splitLoop]
      rw [if_pos (show 130 < 150 ∧ acc.length < 10000 from ⟨by norm_num, hlt⟩)]
      have hch : ((aText.drop 130).take (min (130 + 100) 150 - 130)).any
          (fun c => !c.isWhitespace) = true := by decide
      simp only [hch, if_true]
      norm_num
      rw [ih (acc ++ [List.take 20 (List.drop 130 aText)]) (by simp; omega)]
      simp
      omega
    · have h10000 : acc.length = 10000 := by omega
      simp only [splitLoop]
      rw [if_neg (by omega)]
      simp [h10000]

/-- The degraded re-split of `aText` under the halved parameters
`(100, 20)` runs into the stall and fills up to the 10000-chunk cap. -/
theorem aText_degraded_chunks_length :
    ((split_text 100 20 10010 ((String.mk aText).data.take 100000)).chunks).length = 10000 := by
  have h0 : (String.mk aText).data.take 100000 = aText :=
    List.take_of_length_le (by decide)
  have hlen : aText.length = 150 := by simp [aText]
  have hsplit : split_text 100 20 10010 aText = splitLoop 100 20 aText 150 10010 0 [] := by
    unfold split_text
    dsimp only
    rw [if_neg (by rw [hlen]; norm_num), hlen]
  rw [h0, hsplit]
  have h1 : ∀ f, (splitLoop 100 20 aText 150 (f + 1) 0 []).chunks =
      (splitLoop 100 20 aText 150 f 80 [aText.take 100]).chunks := fun _ => rfl
  have h2 : ∀ f, (splitLoop 100 20 aText 150 (f + 1) 80 [aText.take 100]).chunks =
      (splitLoop 100 20 aText 150 f 130
        [aText.take 100, (aText.drop 80).take 70]).chunks := fun _ => rfl
  rw [show (10010 : Nat) = 10009 + 1 from rfl, h1 10009,
      show (10009 : Nat) = 10008 + 1 from rfl, h2 10008,
      splitLoop_aText_stall_growth 10008 _ (by decide)]
  simp only [List.length_cons, List.length_nil]
  omega

/-- C7, counterexample to the claim as stated: process `aText` with
`chunk_size = 200, overlap = 40` when the first split raises
`MemoryError`.  The retry splits with `(100, 20)`, stalls, and produces
10000 chunks; the returned list is capped at 1000 entries but every
entry records `total_chunks = 10000` — `len(chunks)` is computed before
the `[:1000]` cap — so `total_chunks` is not the length of the list
actually returned. -/
theorem c7_total_chunks_counterexample :
    ¬ (∀ c ∈ (process_text ⟨200, 40⟩ true 10010 (String.mk aText) "doc").2,
        c.metadata.total_chunks =
          ((process_text ⟨200, 40⟩ true 10010 (String.mk aText) "doc").2).length) := by
  intro hall
  have hlen10000 : ((split_text 100 20 10010
      ((String.mk aText).data.take 100000)).chunks).length = 10000 :=
    aText_degraded_chunks_length
  have hout : (process_text ⟨200, 40⟩ true 10010 (String.mk aText) "doc").2 =
      wrap_chunks
        (((split_text 100 20 10010 ((String.mk aText).data.take 100000)).chunks).take 1000)
        "doc"
        ((split_text 100 20 10010 ((String.mk aText).data.take 100000)).chunks).length := by
    rw [process_text_true_eq]
    norm_num
  have hl : ((process_text ⟨200, 40⟩ true 10010 (String.mk aText) "doc").2).length = 1000 := by
    rw [hout, wrap_chunks_length, List.length_take, hlen10000]
    omega
  have hpos : 0 < ((process_text ⟨200, 40⟩ true 10010 (String.mk aText) "doc").2).length := by
    omega
  obtain ⟨c, hc⟩ := List.exists_mem_of_length_pos hpos
  have hc2 := hc
  rw [hout] at hc2
  have htot := (wrap_chunks_mem _ _ _ c hc2).2
  rw [hlen10000] at htot
  have hco := hall c hc
  rw [hl, htot] at hco
  omega

/-- C7, amended: every chunk dictionary returned by `process_text`
carries `source` = the caller's identifier and `chunk_index` = its
position in the returned list, on both paths; `total_chunks` equals the
length of the returned list on the normal path (where the total is
computed after the 10000 cap), but on the degraded `MemoryError` path it
is the pre-cap count `len(chunks)` of the retry split, which exceeds the
number of entries actually returned whenever the retry yields more than
1000 chunks. -/
theorem c7_chunk_metadata (dp : Splitter) (fuel : Nat) (text src : String) :
    (((process_text dp false fuel text src).2).map (fun c => c.metadata.chunk_index) =
        List.range ((process_text dp false fuel text src).2).length ∧
      ∀ c ∈ (process_text dp false fuel text src).2,
        c.metadata.source = src ∧
        c.metadata.total_chunks = ((process_text dp false fuel text src).2).length) ∧
    (((process_text dp true fuel text src).2).map (fun c => c.metadata.chunk_index) =
        List.range ((process_text dp true fuel text src).2).length ∧
      ∀ c ∈ (process_text dp true fuel text src).2,
        c.metadata.source = src ∧
        c.metadata.total_chunks =
          ((split_text (min (dp.chunk_size / 2) 500) (min (dp.chunk_overlap / 2) 100) fuel
            (text.data.take 100000)).chunks).length) := by
  refine ⟨⟨?_, ?_⟩, ⟨?_, ?_⟩⟩
  · rw [process_text_false_eq, wrap_chunks_length, wrap_chunks_map_index]
  · intro c hc
    rw [process_text_false_eq] at hc
    refine ⟨(wrap_chunks_mem _ _ _ _ hc).1, ?_⟩
    rw [process_text_false_eq, wrap_chunks_length]
    exact (wrap_chunks_mem _ _ _ _ hc).2
  · rw [process_text_true_eq, wrap_chunks_length, wrap_chunks_map_index]
  · intro c hc
    rw [process_text_true_eq] at hc
    exact wrap_chunks_mem _ _ _ _ hc

/-- Witness for the amended C7 at a concrete input: "hello" splits into
one chunk whose metadata is `("d", 0, 1)`. -/
theorem c7_chunk_metadata_witness :
    ((⟨"hello", ⟨"d", 0, 1⟩⟩ : ChunkDoc) ∈ (process_text ⟨5, 0⟩ false 10 "hello" "d").2) ∧
    (⟨"hello", ⟨"d", 0, 1⟩⟩ : ChunkDoc).metadata.source = "d" ∧
    (⟨"hello", ⟨"d", 0, 1⟩⟩ : ChunkDoc).metadata.total_chunks =
      ((process_text ⟨5, 0⟩ false 10 "hello" "d").2).length :=
  ⟨by decide, (c7_chunk_metadata ⟨5, 0⟩ 10 "hello" "d").1.2 _ (by decide)⟩
